import Mathlib

/-!
Verification of the scherzo chat server core against its specification.

The definitions below are a shallow embedding of the Rust sources under
`src/`.  Byte strings are modelled as `List Nat`, machine integers as `Nat`
(with explicit bounds where overflow matters), the ordered KV trees as
functions from an inductive key type to optional values, and fallible
handlers as `Except ServerError`.  Helper functions whose bodies live
outside the excerpted sources are modelled from the specification and say
so in their doc comments.
-/

namespace Scherzo

/-- Error kinds from the server error taxonomy that the embedded handlers
use (`ServerError` in the source). -/
inductive ServerError where
  | CantKickOrBanYourself
  | InvalidTokenSignature
  | CouldntVerifyTokenData
  | PermissionDenied (permission : String) (guild : Nat) (channel : Option Nat)
  | NoSuchGuild (guild : Nat)
  | NoSuchChannel (channel : Nat)
  | NoSuchMessage (message : Nat)
  | UserNotInGuild (guild user : Nat)
  | DbError
  deriving DecidableEq, Repr

/-- From `src/main.rs` line 358: the process-wide chat event broadcast
channel is created by `tokio::sync::broadcast::channel(1000)`, so its
capacity is 1000 events. -/
def chat_event_channel_capacity : Nat := 1000

/-- A federation token as in `harmonytypes::Token`: a signature and the
signed data, both byte strings. -/
structure Token where
  sig : List Nat
  data : List Nat
  deriving DecidableEq, Repr

/-- From the `ed25519_compact` crate used by `verify_token`
(`src/impls/mod.rs` lines 123-124): `Signature::from_slice` succeeds
exactly when the slice is 64 bytes long (an Ed25519 signature is a fixed
64-byte array). -/
def signatureFromSlice (sig : List Nat) : Option (List Nat) :=
  if sig.length = 64 then some sig else none

/-- From `src/impls/mod.rs` lines 120-129 (`verify_token`): parse the
signature, failing with `InvalidTokenSignature`; then verify the data
under the public key, failing with `CouldntVerifyTokenData`.  The
cryptographic verification itself is the external crate's
`PublicKey::verify`, abstracted here as the `verifies` parameter. -/
def verify_token (verifies : Nat → List Nat → List Nat → Bool)
    (pubkey : Nat) (token : Token) : Except ServerError Unit :=
  match signatureFromSlice token.sig with
  | none => .error .InvalidTokenSignature
  | some s => if verifies pubkey token.data s then .ok () else .error .CouldntVerifyTokenData

/-- The value of `u64::MAX`. -/
def u64_max : Nat := 2 ^ 64 - 1

/-- From `src/impls/mod.rs` lines 68-70 (`gen_rand_u64`):
`rand::thread_rng().gen_range(1..u64::MAX)` draws uniformly from the
half-open range `[1, u64::MAX)`.  The RNG is modelled by the `entropy`
argument; `gen_range(low..high)` is modelled as `low + entropy % (high - low)`. -/
def gen_rand_u64 (entropy : Nat) : Nat :=
  1 + entropy % (u64_max - 1)

/-- Claim C3 counterexample: the broadcast channel capacity hard-coded in
`src/main.rs` line 358 is 1000, not (approximately) 2048 as the spec
states. -/
theorem chat_event_channel_capacity_ne_2048 :
    chat_event_channel_capacity = 1000 ∧ chat_event_channel_capacity ≠ 2048 := by
  decide

/-- Claim C3, amended: the process-wide event broadcast channel carrying
`EventBroadcast` records is bounded, with capacity 1000 events. -/
theorem chat_event_channel_capacity_eq_1000 : chat_event_channel_capacity = 1000 := rfl

/-- Claim C5: `verify_token` returns `InvalidTokenSignature` exactly when
the signature bytes are not a well-formed Ed25519 signature (not 64 bytes),
returns `CouldntVerifyTokenData` exactly when the signature is well-formed
but does not verify the data under the key, and returns `Ok(())` exactly
when the well-formed signature verifies the data. -/
theorem verify_token_spec (verifies : Nat → List Nat → List Nat → Bool)
    (pubkey : Nat) (token : Token) :
    (verify_token verifies pubkey token = .error .InvalidTokenSignature
        ↔ token.sig.length ≠ 64)
  ∧ (verify_token verifies pubkey token = .error .CouldntVerifyTokenData
        ↔ token.sig.length = 64 ∧ verifies pubkey token.data token.sig = false)
  ∧ (verify_token verifies pubkey token = .ok ()
        ↔ token.sig.length = 64 ∧ verifies pubkey token.data token.sig = true) := by
  unfold verify_token signatureFromSlice
  by_cases hlen : token.sig.length = 64 <;>
    simp only [hlen, if_true, if_false, ite_true, ite_false] <;>
    [skip; simp [hlen]]
  by_cases hv : verifies pubkey token.data token.sig = true <;>
    simp [hv, hlen]

/-- Witness for claim C5: a 64-byte signature under an always-verifying
key yields `Ok(())`. -/
theorem verify_token_spec_witness :
    verify_token (fun _ _ _ => true) 0 ⟨List.replicate 64 0, []⟩ = .ok () :=
  ((verify_token_spec (fun _ _ _ => true) 0 ⟨List.replicate 64 0, []⟩).2.2).mpr
    ⟨by simp, rfl⟩

/-- Claim C8: every id produced by the generator lies in the nonzero range
`1..u64::MAX`, i.e. it is at least 1 and strictly below `u64::MAX`. -/
theorem gen_rand_u64_range (entropy : Nat) :
    1 ≤ gen_rand_u64 entropy ∧ gen_rand_u64 entropy < u64_max := by
  constructor
  · exact Nat.le_add_right 1 _
  · have hlt : entropy % (u64_max - 1) < u64_max - 1 := by
      apply Nat.mod_lt
      norm_num [u64_max]
    have hmax : 1 ≤ u64_max := by norm_num [u64_max]
    unfold gen_rand_u64
    omega

/-- Keys of the `chat` tree used by the embedded handlers, following the
key-composition scheme of the spec (the byte-level codec in `db::chat` is
not among the excerpted sources; the spec requires its prefixes to be
disjoint, which the distinct constructors give). -/
inductive ChatKey where
  | guildInfo (guild : Nat)
  | member (guild user : Nat)
  | channelKey (guild channel : Nat)
  | messageKey (guild channel message : Nat)
  | rolesOfUser (guild user : Nat)
  | permOverride (guild : Nat) (channel : Option Nat) (role : Nat) (pattern : String)
  deriving DecidableEq

/-- The `chat` tree: a map from keys to optional byte-string values. -/
def ChatStore : Type := ChatKey → Option (List Nat)

/-- `Tree::remove` on the chat tree. -/
def store_remove (s : ChatStore) (k : ChatKey) : ChatStore :=
  fun k2 => if k2 = k then none else s k2

/-- Subscription selectors, from `EventSub` in the source. -/
inductive EventSub where
  | guild (guild_id : Nat)
  | actions
  | homeserver
  deriving DecidableEq, Repr

/-- Leave reasons, from `LeaveReason` in the harmony API. -/
inductive LeaveReason where
  | willinglyUnspecified
  | kicked
  deriving DecidableEq, Repr

/-- The stream events the embedded handlers emit. -/
inductive StreamEvent where
  | leftMember (guild_id member_id : Nat) (reason : LeaveReason)
  deriving DecidableEq, Repr

/-- Outbound federation dispatches the embedded handlers enqueue. -/
inductive FedDispatch where
  | guildLeave (guild_id user_id : Nat)
  deriving DecidableEq, Repr

/-- Modelled from the spec: `check_guild_user` (body not under `src/`)
errors with `NoSuchGuild` when the guild does not exist and with
`UserNotInGuild` when the member key is absent ("a user is in a guild iff
a member key exists"). -/
def check_guild_user (s : ChatStore) (guild_id user_id : Nat) : Except ServerError Unit :=
  if s (.guildInfo guild_id) = none then .error (.NoSuchGuild guild_id)
  else if s (.member guild_id user_id) = none then .error (.UserNotInGuild guild_id user_id)
  else .ok ()

/-- Modelled from the spec: `is_user_in_guild` (body not under `src/`)
errors with `UserNotInGuild` when the member key is absent. -/
def is_user_in_guild (s : ChatStore) (guild_id user_id : Nat) : Except ServerError Unit :=
  if s (.member guild_id user_id) = none then .error (.UserNotInGuild guild_id user_id)
  else .ok ()

/-- Modelled from the spec: `check_perms` (body not under `src/`) runs the
permission engine — abstracted as the `allows` argument, taking the guild,
optional channel, user, permission name and the owner-fallback flag — and
turns a deny into `PermissionDenied(permission, scope)`. -/
def check_perms (allows : Nat → Option Nat → Nat → String → Bool → Bool)
    (guild_id : Nat) (channel_id : Option Nat) (user_id : Nat)
    (permission : String) (owner_fallback : Bool) : Except ServerError Unit :=
  if allows guild_id channel_id user_id permission owner_fallback then .ok ()
  else .error (.PermissionDenied permission guild_id channel_id)

/-- The observable outcome of a successful `leave_guild`: the mutated
store, the events sent through the broadcast channel (with the selector
they are sent under), and the enqueued federation dispatches. -/
structure LeaveOutcome where
  store : ChatStore
  events : List (EventSub × StreamEvent)
  dispatches : List FedDispatch

/-- From `src/impls/chat/guilds/leave_guild.rs` lines 3-35: after
authentication, check guild membership, remove the member key (and nothing
else) from the chat tree, emit one `LeftMember` event with reason
`WillinglyUnspecified` under `EventSub::Guild(guild_id)`, and dispatch one
federation guild-leave (`dispatch_guild_leave`, modelled from the spec as
enqueuing exactly one dispatch). -/
def leave_guild (s : ChatStore) (guild_id user_id : Nat) : Except ServerError LeaveOutcome :=
  match check_guild_user s guild_id user_id with
  | .error e => .error e
  | .ok _ =>
    .ok { store := store_remove s (.member guild_id user_id)
          events := [(.guild guild_id, .leftMember guild_id user_id .willinglyUnspecified)]
          dispatches := [.guildLeave guild_id user_id] }

/-- A concrete chat store: guild 42 exists, user 50 is a member and has a
roles-of-user key recorded. -/
def leave_ex_store : ChatStore := fun k =>
  match k with
  | .guildInfo 42 => some []
  | .member 42 50 => some []
  | .rolesOfUser 42 50 => some []
  | _ => none

/-- Claim C1 counterexample: leaving guild 42 as member 50 leaves the
per-member derived key `rolesOfUser 42 50` in place — the handler removes
only the member key, contradicting the claim that all per-member derived
keys are removed. -/
theorem leave_guild_keeps_roles_key :
    (leave_guild leave_ex_store 42 50).map
        (fun o => o.store (ChatKey.rolesOfUser 42 50)) = .ok (some []) := rfl

/-- Claim C1, amended: for every leave_guild request by an authenticated
member of the guild, the handler removes the member key for (guild, user)
and no other key (per-member derived keys such as roles-of-user and
permission overrides are left untouched), emits exactly one
`LeftMember{reason=WillinglyUnspecified}` to `Guild(guild_id)` subscribers,
and enqueues exactly one federation guild-leave dispatch. -/
theorem leave_guild_spec (s : ChatStore) (guild_id user_id : Nat)
    (hg : s (ChatKey.guildInfo guild_id) ≠ none)
    (hm : s (ChatKey.member guild_id user_id) ≠ none) :
    ((leave_guild s guild_id user_id).map
        (fun o => o.store (ChatKey.member guild_id user_id)) = .ok none)
  ∧ (∀ k, k ≠ ChatKey.member guild_id user_id →
        (leave_guild s guild_id user_id).map (fun o => o.store k) = .ok (s k))
  ∧ ((leave_guild s guild_id user_id).map LeaveOutcome.events
        = .ok [(.guild guild_id, .leftMember guild_id user_id .willinglyUnspecified)])
  ∧ ((leave_guild s guild_id user_id).map LeaveOutcome.dispatches
        = .ok [.guildLeave guild_id user_id]) := by
  unfold leave_guild check_guild_user
  simp only [hg, hm, if_false, ite_false, if_neg]
  refine ⟨?_, ?_, rfl, rfl⟩
  · simp [Except.map, store_remove]
  · intro k hk
    simp [Except.map, store_remove, hk]

/-- Witness for the amended claim C1 at the concrete store. -/
theorem leave_guild_spec_witness :
    (leave_guild leave_ex_store 42 50).map LeaveOutcome.dispatches
      = .ok [.guildLeave 42 50] :=
  (leave_guild_spec leave_ex_store 42 50 (by decide) (by decide)).2.2.2

/-- The observable outcome of a `kick_user` call: the handler result, the
store after the call, the emitted events and the enqueued federation
dispatches. -/
structure KickOutcome where
  result : Except ServerError Unit
  store : ChatStore
  events : List (EventSub × StreamEvent)
  dispatches : List FedDispatch

/-- Modelled from the spec: `kick_user_logic` (body not under `src/`)
removes the member key and the per-member derived roles key. -/
def kick_user_logic (s : ChatStore) (guild_id user_id : Nat) : ChatStore :=
  store_remove (store_remove s (.member guild_id user_id)) (.rolesOfUser guild_id user_id)

/-- From `src/impls/chat/moderation/kick_user.rs` lines 3-42: after
authentication, reject self-kick with `CantKickOrBanYourself` before any
store access; otherwise check requester membership, target membership and
the `user.manage.kick` permission, run `kick_user_logic`, emit one
`LeftMember{reason=Kicked}` and dispatch one federation guild-leave. -/
def kick_user (s : ChatStore) (allows : Nat → Option Nat → Nat → String → Bool → Bool)
    (guild_id user_id user_to_kick : Nat) : KickOutcome :=
  if user_id = user_to_kick then
    { result := .error .CantKickOrBanYourself, store := s, events := [], dispatches := [] }
  else
    match check_guild_user s guild_id user_id with
    | .error e => { result := .error e, store := s, events := [], dispatches := [] }
    | .ok _ =>
      match is_user_in_guild s guild_id user_to_kick with
      | .error e => { result := .error e, store := s, events := [], dispatches := [] }
      | .ok _ =>
        match check_perms allows guild_id none user_id "user.manage.kick" false with
        | .error e => { result := .error e, store := s, events := [], dispatches := [] }
        | .ok _ =>
          { result := .ok ()
            store := kick_user_logic s guild_id user_to_kick
            events := [(.guild guild_id, .leftMember guild_id user_to_kick .kicked)]
            dispatches := [.guildLeave guild_id user_to_kick] }

/-- Claim C2: kicking yourself returns `CantKickOrBanYourself`, emits no
event, enqueues no dispatch, and leaves the store — in particular the
member key for (guild, user) — unchanged. -/
theorem kick_user_self_spec (s : ChatStore)
    (allows : Nat → Option Nat → Nat → String → Bool → Bool) (guild_id user_id : Nat) :
    kick_user s allows guild_id user_id user_id
      = { result := .error .CantKickOrBanYourself, store := s, events := [], dispatches := [] } := by
  simp [kick_user]

/-- Modelled from the spec: `check_guild_user_channel` (body not under
`src/`) is the membership check plus a channel-existence check. -/
def check_guild_user_channel (s : ChatStore) (guild_id user_id channel_id : Nat) :
    Except ServerError Unit :=
  match check_guild_user s guild_id user_id with
  | .error e => .error e
  | .ok _ =>
    if s (.channelKey guild_id channel_id) = none then .error (.NoSuchChannel channel_id)
    else .ok ()

/-- Modelled from the spec: `get_message_logic` (body not under `src/`)
fetches the stored message bytes or fails with `NoSuchMessage`. -/
def get_message_logic (s : ChatStore) (guild_id channel_id message_id : Nat) :
    Except ServerError (List Nat) :=
  match s (.messageKey guild_id channel_id message_id) with
  | some raw => .ok raw
  | none => .error (.NoSuchMessage message_id)

/-- From `src/impls/chat/messages/get_message.rs` lines 3-29: after
authentication, check guild/channel membership, then the `messages.view`
permission scoped to (guild, channel), then fetch the message. -/
def get_message (s : ChatStore) (allows : Nat → Option Nat → Nat → String → Bool → Bool)
    (guild_id channel_id message_id user_id : Nat) :
    Except ServerError (Option (List Nat)) :=
  match check_guild_user_channel s guild_id user_id channel_id with
  | .error e => .error e
  | .ok _ =>
    match check_perms allows guild_id (some channel_id) user_id "messages.view" false with
    | .error e => .error e
    | .ok _ => (get_message_logic s guild_id channel_id message_id).map some

/-- Claim C4: when the membership checks pass but the permission engine
denies `messages.view` on (guild, channel), `get_message` returns
`PermissionDenied("messages.view", (guild, channel))` and no message. -/
theorem get_message_denied_spec (s : ChatStore)
    (allows : Nat → Option Nat → Nat → String → Bool → Bool)
    (guild_id channel_id message_id user_id : Nat)
    (hmem : check_guild_user_channel s guild_id user_id channel_id = .ok ())
    (hperm : allows guild_id (some channel_id) user_id "messages.view" false = false) :
    get_message s allows guild_id channel_id message_id user_id
      = .error (.PermissionDenied "messages.view" guild_id (some channel_id)) := by
  unfold get_message check_perms
  rw [hmem, hperm]
  simp

/-- A concrete chat store for the C4 witness: guild 42 with channel 7,
user 50 a member, message 3 present. -/
def get_message_ex_store : ChatStore := fun k =>
  match k with
  | .guildInfo 42 => some []
  | .member 42 50 => some []
  | .channelKey 42 7 => some []
  | .messageKey 42 7 3 => some [104, 105]
  | _ => none

/-- Witness for claim C4: user 50 is a member of guild 42 and channel 7
exists, but a permission engine denying everything makes `get_message`
return the permission-denied error. -/
theorem get_message_denied_spec_witness :
    get_message get_message_ex_store (fun _ _ _ _ _ => false) 42 7 3 50
      = .error (.PermissionDenied "messages.view" 42 (some 7)) :=
  get_message_denied_spec get_message_ex_store (fun _ _ _ _ _ => false) 42 7 3 50 rfl rfl

/-- Per-connection subscriber state: the current subscription set and
whether the connection is still open.  The subscription list is owned by
the send-task processor (`spawn_event_stream_processor`, modelled from the
spec: each selector received over the internal channel is added to the
set). -/
structure StreamConnState where
  subscriptions : List EventSub
  clientOpen : Bool
  deriving DecidableEq, Repr

/-- Subscription requests of the event stream, from
`stream_events_request` in the harmony API. -/
inductive StreamEventsRequest where
  | subscribeToGuild (guild_id : Nat)
  | subscribeToActions
  | subscribeToHomeserverEvents
  deriving DecidableEq, Repr

/-- From `src/impls/chat/stream_events.rs` lines 24-56 (the receive loop
body): on `SubscribeToGuild(gid)` run `check_guild_user(gid, user)`; on
success the selector `Guild(gid)` is sent to the processor (which adds it
to the subscription set); on failure the error is logged and the loop
continues — the state is unchanged, the connection stays open, and no
error is sent to the client (the second component, the client-visible
error, is always `none` here; the connection closes only on transport
errors via `bail_result!`). -/
def recv_loop_step (s : ChatStore) (user_id : Nat) (req : StreamEventsRequest)
    (st : StreamConnState) : StreamConnState × Option ServerError :=
  match req with
  | .subscribeToGuild gid =>
    match check_guild_user s gid user_id with
    | .ok _ => ({ st with subscriptions := .guild gid :: st.subscriptions }, none)
    | .error _ => (st, none)
  | .subscribeToActions => ({ st with subscriptions := .actions :: st.subscriptions }, none)
  | .subscribeToHomeserverEvents =>
    ({ st with subscriptions := .homeserver :: st.subscriptions }, none)

/-- Claim C6: for `SubscribeToGuild(gid)` the receive loop adds
`Guild(gid)` to the subscription set when `check_guild_user` succeeds, and
on failure leaves the state unchanged (subscriptions untouched, connection
still open) — in both cases no error is returned to the client. -/
theorem stream_events_subscribe_spec (s : ChatStore) (user_id gid : Nat)
    (st : StreamConnState) :
    (check_guild_user s gid user_id = .ok () →
        recv_loop_step s user_id (.subscribeToGuild gid) st
          = ({ st with subscriptions := .guild gid :: st.subscriptions }, none))
  ∧ (∀ e, check_guild_user s gid user_id = .error e →
        recv_loop_step s user_id (.subscribeToGuild gid) st = (st, none)) := by
  constructor
  · intro h
    simp [recv_loop_step, h]
  · intro e h
    simp [recv_loop_step, h]

/-- Witness for claim C6: on an empty store the membership check fails
with `NoSuchGuild`, and the loop keeps the state and reports nothing to
the client. -/
theorem stream_events_subscribe_spec_witness :
    recv_loop_step (fun _ => none) 50 (.subscribeToGuild 42) ⟨[], true⟩
      = (⟨[], true⟩, none) :=
  (stream_events_subscribe_spec (fun _ => none) 50 42 ⟨[], true⟩).2
    (.NoSuchGuild 42) rfl

/-- The 62-character charset of the rand crate's `Alphanumeric`
distribution. -/
def alphanumeric_charset : List Char :=
  "ABCDEFGHIJKLMNOPQRSTUVWXYZabcdefghijklmnopqrstuvwxyz0123456789".toList

theorem alphanumeric_charset_length : alphanumeric_charset.length = 62 := rfl

/-- Modelled from the spec: the rand crate's `Alphanumeric` distribution
(external to this repository, used at `src/impls/mod.rs` line 58,
[tag:alphanumeric_array_gen]) draws a uniform index below 62 and returns
the corresponding charset character. -/
def sample_alphanumeric (i : Fin 62) : Char :=
  alphanumeric_charset.get (Fin.cast alphanumeric_charset_length.symm i)

/-- From `src/impls/mod.rs` lines 54-66 (`gen_rand_arr`): take `LEN`
samples from the `Alphanumeric` sample iterator — the RNG modelled by the
`stream` of uniform indices — and write them into the array in order. -/
def gen_rand_arr (len : Nat) (stream : Nat → Fin 62) : List Char :=
  (List.range len).map (fun i => sample_alphanumeric (stream i))

/-- From `src/impls/mod.rs` lines 38-44 (`gen_rand_inline_str`): a session
token is the 22-character string built from `gen_rand_arr::<22>`. -/
def gen_rand_inline_str (stream : Nat → Fin 62) : String :=
  String.mk (gen_rand_arr 22 stream)

/-- Claim C7: every minted session token has exactly 22 characters, all of
them alphanumeric ASCII; and the sampling map lists the 62-character
alphanumeric alphabet without repetition, so a uniform index yields a
character drawn uniformly from that alphabet. -/
theorem gen_rand_inline_str_spec (stream : Nat → Fin 62) :
    (gen_rand_inline_str stream).length = 22
  ∧ ((gen_rand_inline_str stream).data.all Char.isAlphanum = true)
  ∧ ((List.finRange 62).map sample_alphanumeric = alphanumeric_charset)
  ∧ alphanumeric_charset.Nodup := by
  have hlen : (gen_rand_inline_str stream).length = 22 := by
    simp [gen_rand_inline_str, String.length, gen_rand_arr]
  have halnum : ∀ i : Fin 62, (sample_alphanumeric i).isAlphanum = true := by decide
  refine ⟨hlen, ?_, by decide, by decide⟩
  have hall : ∀ c ∈ gen_rand_arr 22 stream, Char.isAlphanum c = true := by
    intro c hc
    rcases List.mem_map.mp hc with ⟨i, _, hi⟩
    exact hi ▸ halnum (stream i)
  simpa [gen_rand_inline_str, List.all_eq_true] using hall

/-- Profile record, from `harmony_rust_sdk::api::profile::Profile` as the
handler uses it: name, optional avatar, status code and bot flag; prost
defaults are the empty name, no avatar, status 0, not a bot. -/
structure Profile where
  user_name : String
  user_avatar : Option String
  user_status : Int
  is_bot : Bool
  deriving DecidableEq, Repr

def Profile.defaultProfile : Profile :=
  { user_name := "", user_avatar := none, user_status := 0, is_bot := false }

/-- Keys of the `profile` tree, following the key scheme of the spec (the
byte-level codec in `db::profile` is not among the excerpted sources). -/
inductive ProfileKey where
  | userProfile (user_id : Nat)
  | localToForeign (user_id : Nat)
  | foreignToLocal (foreign_id : Nat) (host : String)
  | userMetadata (user_id : Nat) (app_id : String)
  deriving DecidableEq

/-- Values stored in the `profile` tree: either a serialized profile or
raw bytes (mappings, app data). -/
inductive ProfileVal where
  | profileVal (p : Profile)
  | rawVal (bytes : List Nat)
  deriving DecidableEq

/-- `rkyv_ser` on a profile, modelled as the injective constructor (the
source relies on serialize/deserialize being a round trip). -/
def rkyv_ser (p : Profile) : ProfileVal := .profileVal p

/-- `db::deser_profile`, the inverse of `rkyv_ser`; raw bytes never hold a
profile in a well-formed tree, so that branch yields the default. -/
def deser_profile (v : ProfileVal) : Profile :=
  match v with
  | .profileVal p => p
  | .rawVal _ => Profile.defaultProfile

/-- The `profile` tree: a map from keys to optional values. -/
def ProfileTree : Type := ProfileKey → Option ProfileVal

/-- `Tree::insert` on the profile tree. -/
def profile_insert (t : ProfileTree) (k : ProfileKey) (v : ProfileVal) : ProfileTree :=
  fun k2 => if k2 = k then some v else t k2

/-- From `src/impls/profile/mod.rs` lines 77-108 (`update_profile_logic`):
read the stored profile at the user's profile key (default when absent),
overwrite each field whose argument is `Some`, and insert the result back
under the same key. -/
def update_profile_logic (t : ProfileTree) (user_id : Nat)
    (new_user_name new_user_avatar : Option String)
    (new_user_status : Option Int) (new_is_bot : Option Bool) : ProfileTree :=
  let key := ProfileKey.userProfile user_id
  let profile0 := (t key).elim Profile.defaultProfile deser_profile
  let profile1 := match new_user_name with
    | some v => { profile0 with user_name := v }
    | none => profile0
  let profile2 := match new_user_avatar with
    | some v => { profile1 with user_avatar := some v }
    | none => profile1
  let profile3 := match new_user_status with
    | some v => { profile2 with user_status := v }
    | none => profile2
  let profile4 := match new_is_bot with
    | some v => { profile3 with is_bot := v }
    | none => profile3
  profile_insert t key (rkyv_ser profile4)

/-- Claim C9: after `update_profile_logic`, the user's profile key holds a
profile whose `Some`-argument fields are set to the given values and whose
`None`-argument fields keep the previously stored (or default) values, and
every other key of the profile tree is unchanged. -/
theorem update_profile_logic_spec (t : ProfileTree) (user_id : Nat)
    (new_user_name new_user_avatar : Option String)
    (new_user_status : Option Int) (new_is_bot : Option Bool) :
    (update_profile_logic t user_id new_user_name new_user_avatar new_user_status new_is_bot
        (ProfileKey.userProfile user_id)
      = some (.profileVal
          (let old := (t (ProfileKey.userProfile user_id)).elim
              Profile.defaultProfile deser_profile
           { user_name := new_user_name.getD old.user_name
             user_avatar := new_user_avatar.elim old.user_avatar some
             user_status := new_user_status.getD old.user_status
             is_bot := new_is_bot.getD old.is_bot })))
  ∧ (∀ k, k ≠ ProfileKey.userProfile user_id →
        update_profile_logic t user_id new_user_name new_user_avatar new_user_status new_is_bot k
          = t k) := by
  constructor
  · unfold update_profile_logic profile_insert rkyv_ser
    simp only [if_pos rfl]
    cases new_user_name <;> cases new_user_avatar <;>
      cases new_user_status <;> cases new_is_bot <;> rfl
  · intro k hk
    unfold update_profile_logic profile_insert
    simp [hk]

/-- Witness for claim C9: updating user 7's name in an empty tree leaves
the unrelated profile key of user 8 absent. -/
theorem update_profile_logic_spec_witness :
    update_profile_logic (fun _ => none) 7 (some "ada") none none (some true)
        (ProfileKey.userProfile 8)
      = none :=
  (update_profile_logic_spec (fun _ => none) 7 (some "ada") none none (some true)).2
    (ProfileKey.userProfile 8) (by decide)

/-- A cache entry of the mediaproxy metadata cache: the value and the
instant it was inserted, measured in whole seconds
(`Instant::elapsed().as_secs()` truncates to whole seconds, and
`floor(elapsed) >= 1800` holds exactly when `elapsed >= 1800` seconds). -/
structure TimedCacheValue (α : Type) where
  value : α
  since : Nat
  deriving DecidableEq, Repr

/-- The mediaproxy metadata cache, keyed by URL. -/
def MetaCache (α : Type) : Type := String → Option (TimedCacheValue α)

/-- `DashMap::remove` on the cache. -/
def cache_remove {α : Type} (c : MetaCache α) (url : String) : MetaCache α :=
  fun u => if u = url then none else c u

/-- From `src/impls/mediaproxy.rs` lines 30-46 (`get_from_cache`): when an
entry exists and its age in whole seconds is at least `30 * 60`, the entry
is removed and nothing is returned; a younger entry is returned and the
cache is untouched; an absent URL returns nothing.  Returns the cache-hit
value together with the cache after the call. -/
def get_from_cache {α : Type} (c : MetaCache α) (now : Nat) (url : String) :
    Option α × MetaCache α :=
  match c url with
  | some val => if 30 * 60 ≤ now - val.since then (none, cache_remove c url)
                else (some val.value, c)
  | none => (none, c)

/-- Claim C10: for a URL whose entry was inserted at time `since`, the
cache returns the metadata iff strictly less than 1800 seconds have
elapsed; a fresh hit leaves the cache unchanged, and an entry at least
1800 seconds old is removed (its key is absent afterwards) while `none` is
returned — so callers are served metadata up to but never beyond 30
minutes stale. -/
theorem get_from_cache_spec {α : Type} (c : MetaCache α) (now : Nat) (url : String)
    (entry : TimedCacheValue α) (hc : c url = some entry) :
    ((get_from_cache c now url).1 = some entry.value ↔ now - entry.since < 1800)
  ∧ (now - entry.since < 1800 → (get_from_cache c now url).2 = c)
  ∧ (1800 ≤ now - entry.since →
        (get_from_cache c now url).1 = none
      ∧ (get_from_cache c now url).2 url = none) := by
  have heq : get_from_cache c now url
      = if 30 * 60 ≤ now - entry.since then (none, cache_remove c url)
        else (some entry.value, c) := by
    unfold get_from_cache
    rw [hc]
  rw [heq]
  by_cases h : 30 * 60 ≤ now - entry.since
  · rw [if_pos h]
    refine ⟨⟨fun habs => absurd habs (by simp), fun hlt => absurd h (by omega)⟩,
      fun hlt => absurd h (by omega), fun _ => ⟨rfl, ?_⟩⟩
    simp [cache_remove]
  · rw [if_neg h]
    exact ⟨⟨fun _ => by omega, fun _ => rfl⟩, fun _ => rfl,
      fun hge => absurd hge (by omega)⟩

/-- Witness for claim C10: an entry inserted at second 0 queried at second
10 is served back, entry age 10 < 1800. -/
theorem get_from_cache_spec_witness :
    (get_from_cache (fun u => if u = "x" then some ⟨5, 0⟩ else none) 10 "x").1
      = some (5 : Nat) :=
  ((get_from_cache_spec (fun u => if u = "x" then some ⟨5, 0⟩ else none)
      10 "x" ⟨5, 0⟩ rfl).1).mpr (by omega)

end Scherzo
